import Mathlib

/-!
Verification of the image-optimization cache core of `src/server.js`.

The embedding covers:
* `generateCacheKey` (lines 101–111): an MD5 digest of the five request
  fields fed in order to a single hash accumulator (sequential
  `update` calls hash the concatenation of their arguments), rendered
  as lowercase hex with `.` + format appended.  MD5 is implemented
  bit-faithfully below over byte lists, with machine words as `Nat`
  reduced `% 2^32`.
* the `/optimize/:imageName` request handler (lines 113–172), embedded
  as a pure function from an environment (cache contents, transform
  pipeline behaviour, write success) and the request parameters to a
  response together with an effect trace (pipeline invocations, cache
  writes) and the resulting cache state.
* JavaScript `Number.parseInt` and the `||`-defaulting used by the
  parameter parsing (lines 116–119).

JS numbers are modelled as `Int`: all concrete inputs considered stay
far below 2^53, where JS doubles are exact integers.
-/

/-! ### 32-bit word arithmetic (words as `Nat`, reduced mod 2^32) -/

def m32 : Nat := 4294967296

def not32 (x : Nat) : Nat := 4294967295 - x

def rotl32 (x n : Nat) : Nat := (x * 2 ^ n) % m32 + x / 2 ^ (32 - n)

/-! ### MD5 (RFC 1321) over byte lists -/

def md5K : List Nat :=
  [0xd76aa478, 0xe8c7b756, 0x242070db, 0xc1bdceee,
   0xf57c0faf, 0x4787c62a, 0xa8304613, 0xfd469501,
   0x698098d8, 0x8b44f7af, 0xffff5bb1, 0x895cd7be,
   0x6b901122, 0xfd987193, 0xa679438e, 0x49b40821,
   0xf61e2562, 0xc040b340, 0x265e5a51, 0xe9b6c7aa,
   0xd62f105d, 0x02441453, 0xd8a1e681, 0xe7d3fbc8,
   0x21e1cde6, 0xc33707d6, 0xf4d50d87, 0x455a14ed,
   0xa9e3e905, 0xfcefa3f8, 0x676f02d9, 0x8d2a4c8a,
   0xfffa3942, 0x8771f681, 0x6d9d6122, 0xfde5380c,
   0xa4beea44, 0x4bdecfa9, 0xf6bb4b60, 0xbebfbc70,
   0x289b7ec6, 0xeaa127fa, 0xd4ef3085, 0x04881d05,
   0xd9d4d039, 0xe6db99e5, 0x1fa27cf8, 0xc4ac5665,
   0xf4292244, 0x432aff97, 0xab9423a7, 0xfc93a039,
   0x655b59c3, 0x8f0ccc92, 0xffeff47d, 0x85845dd1,
   0x6fa87e4f, 0xfe2ce6e0, 0xa3014314, 0x4e0811a1,
   0xf7537e82, 0xbd3af235, 0x2ad7d2bb, 0xeb86d391]

def md5S (i : Nat) : Nat :=
  List.getD [7, 12, 17, 22, 5, 9, 14, 20, 4, 11, 16, 23, 6, 10, 15, 21]
    (i / 16 * 4 + i % 4) 0

def md5G (i : Nat) : Nat :=
  if i < 16 then i
  else if i < 32 then (5 * i + 1) % 16
  else if i < 48 then (3 * i + 5) % 16
  else 7 * i % 16

def md5F (i b c d : Nat) : Nat :=
  if i < 16 then (b &&& c) ||| (not32 b &&& d)
  else if i < 32 then (d &&& b) ||| (not32 d &&& c)
  else if i < 48 then b ^^^ c ^^^ d
  else c ^^^ (b ||| not32 d)

def md5Round (M : List Nat) (st : Nat × Nat × Nat × Nat) (i : Nat) :
    Nat × Nat × Nat × Nat :=
  let a := st.1
  let b := st.2.1
  let c := st.2.2.1
  let d := st.2.2.2
  let f := (a + md5F i b c d + List.getD md5K i 0 + List.getD M (md5G i) 0) % m32
  (d, (b + rotl32 f (md5S i)) % m32, b, c)

/-- Group a 64-byte block into 16 little-endian 32-bit words. -/
def toWords32 : List Nat → List Nat
  | b0 :: b1 :: b2 :: b3 :: rest =>
      (b0 + 256 * b1 + 65536 * b2 + 16777216 * b3) :: toWords32 rest
  | _ => []

def md5Block (st : Nat × Nat × Nat × Nat) (block : List Nat) :
    Nat × Nat × Nat × Nat :=
  let M := toWords32 block
  let r := (List.range 64).foldl (md5Round M) st
  ((st.1 + r.1) % m32, (st.2.1 + r.2.1) % m32,
   (st.2.2.1 + r.2.2.1) % m32, (st.2.2.2 + r.2.2.2) % m32)

/-- The 64-bit message bit length, as 8 little-endian bytes. -/
def lenBytes (n : Nat) : List Nat :=
  [n % 256, n / 256 % 256, n / 65536 % 256, n / 16777216 % 256,
   n / 4294967296 % 256, n / 1099511627776 % 256,
   n / 281474976710656 % 256, n / 72057594037927936 % 256]

/-- MD5 padding: a 0x80 byte, zeros to 56 mod 64, then the bit length. -/
def md5Pad (msg : List Nat) : List Nat :=
  msg ++ [128] ++ List.replicate ((119 - msg.length % 64) % 64) 0
      ++ lenBytes (8 * msg.length)

/-- Split into 64-byte blocks; the list length is enough fuel. -/
def chunks64Aux : Nat → List Nat → List (List Nat)
  | 0, _ => []
  | _ + 1, [] => []
  | fuel + 1, l => l.take 64 :: chunks64Aux fuel (l.drop 64)

def chunks64 (l : List Nat) : List (List Nat) := chunks64Aux l.length l

def md5Init : Nat × Nat × Nat × Nat :=
  (0x67452301, 0xefcdab89, 0x98badcfe, 0x10325476)

def wordLEBytes (w : Nat) : List Nat :=
  [w % 256, w / 256 % 256, w / 65536 % 256, w / 16777216 % 256]

/-- The 16-byte MD5 digest of a byte list. -/
def md5Digest (msg : List Nat) : List Nat :=
  let st := (chunks64 (md5Pad msg)).foldl md5Block md5Init
  wordLEBytes st.1 ++ wordLEBytes st.2.1
    ++ wordLEBytes st.2.2.1 ++ wordLEBytes st.2.2.2

/-! ### Hex rendering and UTF-8 -/

def hexDigit (n : Nat) : Char :=
  if n < 10 then Char.ofNat (48 + n) else Char.ofNat (87 + n)

def byteToHex (b : Nat) : String := String.mk [hexDigit (b / 16), hexDigit (b % 16)]

def bytesToHex (l : List Nat) : String :=
  l.foldr (fun b acc => byteToHex b ++ acc) ""

def utf8Bytes (c : Char) : List Nat :=
  let n := c.toNat
  if n < 128 then [n]
  else if n < 2048 then [192 + n / 64, 128 + n % 64]
  else if n < 65536 then [224 + n / 4096, 128 + n / 64 % 64, 128 + n % 64]
  else [240 + n / 262144, 128 + n / 4096 % 64, 128 + n / 64 % 64, 128 + n % 64]

def strBytes (s : String) : List Nat := (s.data.map utf8Bytes).flatten

/-- Lowercase-hex MD5 of a string, as `crypto.createHash("md5")` produces. -/
def md5Hex (s : String) : String := bytesToHex (md5Digest (strBytes s))

/-! ### generateCacheKey (src/server.js lines 101–111)

Sequential `update` calls on a Node hash object hash the concatenation
of their (UTF-8 encoded) arguments, so the digest input is
`originalName + width + height + quality + format` with each numeric
field rendered by `Number.prototype.toString` (decimal for integers,
matching `toString` on `Int`). -/

def generateCacheKey (originalName : String) (width height quality : Int)
    (format : String) : String :=
  md5Hex (originalName ++ toString width ++ toString height
      ++ toString quality ++ format) ++ "." ++ format

/-! ### JavaScript numeric parsing (src/server.js lines 116–119)

`Number.parseInt(x)` with an undefined radix: skip leading whitespace,
read an optional sign, switch to base 16 after a `0x`/`0X` prefix,
then take the longest digit prefix; no digits means NaN.  An absent
query parameter gives `parseInt(undefined) = parseInt("undefined") = NaN`.
NaN is modelled as `none`. -/

def jsWhitespace (c : Char) : Bool :=
  c == ' ' || c == '\t' || c == '\n' || c == '\r' || c == '\x0b' || c == '\x0c' || c == '\xa0'

def digitVal10 (c : Char) : Option Nat :=
  if 48 ≤ c.toNat ∧ c.toNat ≤ 57 then some (c.toNat - 48) else none

def digitVal16 (c : Char) : Option Nat :=
  if 48 ≤ c.toNat ∧ c.toNat ≤ 57 then some (c.toNat - 48)
  else if 97 ≤ c.toNat ∧ c.toNat ≤ 102 then some (c.toNat - 87)
  else if 65 ≤ c.toNat ∧ c.toNat ≤ 70 then some (c.toNat - 55)
  else none

def takeDigits (dv : Char → Option Nat) : List Char → List Nat
  | [] => []
  | c :: rest =>
    match dv c with
    | some d => d :: takeDigits dv rest
    | none => []

def jsParseInt (s : String) : Option Int :=
  let cs := s.data.dropWhile (fun c => jsWhitespace c)
  let signed : Int × List Char :=
    match cs with
    | '-' :: rest => (-1, rest)
    | '+' :: rest => (1, rest)
    | _ => (1, cs)
  let based : Nat × (Char → Option Nat) × List Char :=
    match signed.2 with
    | '0' :: 'x' :: rest => (16, digitVal16, rest)
    | '0' :: 'X' :: rest => (16, digitVal16, rest)
    | _ => (10, digitVal10, signed.2)
  let ds := takeDigits based.2.1 based.2.2
  if ds = [] then none
  else some (signed.1 * (ds.foldl (fun a d => a * based.1 + d) 0 : Nat))

/-- `Number.parseInt(req.query.p) || d`: NaN and 0 are the falsy numbers,
so both an unparsable parameter and a parameter parsing to 0 yield `d`. -/
def jsNumOr (q : Option String) (d : Int) : Int :=
  match q with
  | none => d
  | some s =>
    match jsParseInt s with
    | none => d
    | some n => if n = 0 then d else n

/-- `req.query.format || "jpg"`: the empty string is the only falsy string. -/
def jsStrOr (q : Option String) (d : String) : String :=
  match q with
  | none => d
  | some s => if s = "" then d else s

/-! ### The optimize request handler (src/server.js lines 113–172) -/

/-- The query parameters of a `/optimize/:imageName` request; `none`
is an absent parameter. -/
structure OptimizeQuery where
  width : Option String
  height : Option String
  quality : Option String
  format : Option String

def validFormats : List String := ["jpg", "jpeg", "png", "webp"]

def parsedWidth (q : OptimizeQuery) : Int := jsNumOr q.width 800

def parsedHeight (q : OptimizeQuery) : Int := jsNumOr q.height 600

def parsedQuality (q : OptimizeQuery) : Int := jsNumOr q.quality 80

def effFormat (q : OptimizeQuery) : String := jsStrOr q.format "jpg"

/-- The encoder selected by the `switch (format)` on lines 150–159:
`png` takes no quality option, `webp` and the default `jpeg` branch
receive `{ quality }`. -/
inductive EncodeOp where
  | png : EncodeOp
  | webp : Int → EncodeOp
  | jpeg : Int → EncodeOp
deriving DecidableEq

def encodeOp (format : String) (quality : Int) : EncodeOp :=
  if format = "png" then EncodeOp.png
  else if format = "webp" then EncodeOp.webp quality
  else EncodeOp.jpeg quality

/-- The options object passed to `image.resize` on lines 144–147. -/
structure ResizeOpts where
  fitInside : Bool
  withoutEnlargement : Bool
deriving DecidableEq

def sharpResizeOpts : ResizeOpts := ⟨true, true⟩

/-- One invocation of the sharp pipeline: the source path handed to
`sharp(...)`, the resize arguments and the encoder. -/
structure PipelineCall where
  sourcePath : String
  width : Int
  height : Int
  opts : ResizeOpts
  encode : EncodeOp
deriving DecidableEq

def cacheKeyOf (imageName : String) (q : OptimizeQuery) : String :=
  generateCacheKey imageName (parsedWidth q) (parsedHeight q) (parsedQuality q)
    (effFormat q)

def cachePathOf (imageName : String) (q : OptimizeQuery) : String :=
  "./cache/" ++ cacheKeyOf imageName q

def pipelineCallOf (imageName : String) (q : OptimizeQuery) : PipelineCall :=
  ⟨"./public/" ++ imageName, parsedWidth q, parsedHeight q, sharpResizeOpts,
    encodeOp (effFormat q) (parsedQuality q)⟩

inductive Body where
  | text : String → Body
  | bytes : List Nat → Body
deriving DecidableEq

structure Response where
  status : Nat
  contentType : Option String
  body : Body
deriving DecidableEq

/-- The handler's environment: the cache directory contents (`none`
makes `fs.readFile` throw), the result of a sharp pipeline run
(`none` makes `toBuffer` throw), and whether `fs.writeFile` succeeds. -/
structure Env where
  cache : String → Option (List Nat)
  pipeline : PipelineCall → Option (List Nat)
  writeOk : Bool

/-- The observable outcome of one request: the response, the pipeline
invocations and completed cache-file writes, and the cache contents
afterwards. -/
structure HandlerOutcome where
  resp : Response
  pipelineCalls : List PipelineCall
  cacheWrites : List (String × List Nat)
  cacheAfter : String → Option (List Nat)

/-- The `/optimize/:imageName` handler, lines 113–172.  A failing
`fs.writeFile` throws inside the inner `catch` block, so it reaches
the outer `catch` (line 168) and produces the generic 500 before
`res.send` runs. -/
def optimizeHandler (env : Env) (imageName : String) (q : OptimizeQuery) :
    HandlerOutcome :=
  let format := effFormat q
  if validFormats.contains format = false then
    ⟨⟨400, none, Body.text "Invalid format"⟩, [], [], env.cache⟩
  else
    let cachePath := cachePathOf imageName q
    match env.cache cachePath with
    | some cachedImage =>
        ⟨⟨200, some ("image/" ++ format), Body.bytes cachedImage⟩, [], [], env.cache⟩
    | none =>
        let call := pipelineCallOf imageName q
        match env.pipeline call with
        | none =>
            ⟨⟨500, none, Body.text "Image processing error."⟩, [call], [], env.cache⟩
        | some optimizedImageBuffer =>
            if env.writeOk then
              ⟨⟨200, some ("image/" ++ format), Body.bytes optimizedImageBuffer⟩,
                [call], [(cachePath, optimizedImageBuffer)],
                fun p => if p = cachePath then some optimizedImageBuffer else env.cache p⟩
            else
              ⟨⟨500, none, Body.text "Image processing error."⟩, [call], [], env.cache⟩

/-- Modelled from the spec: the sharp library's resize implementation is
not part of this repository.  §4.3 describes the `fit: inside` +
`withoutEnlargement: true` policy selected on lines 144–147 as scaling
by `min(reqW/natW, reqH/natH)` capped at 1 (fit inside the box, never
enlarge), preserving aspect ratio; dimensions are kept exact as
rationals. -/
def resizeDims (natW natH reqW reqH : ℚ) : ℚ × ℚ :=
  let s := min (min (reqW / natW) (reqH / natH)) 1
  (natW * s, natH * s)

/-! Concrete environments used by the witnesses and counterexamples. -/

def envC3 : Env := ⟨fun _ => none, fun _ => some [7, 7, 7], false⟩

def envC4 : Env := ⟨fun _ => none, fun _ => some [9], true⟩

def envC5 : Env := ⟨fun _ => none, fun _ => none, true⟩

def envC6 : Env := ⟨fun _ => none, fun _ => some [5], true⟩

def envC7 : Env := ⟨fun _ => none, fun _ => some [3], true⟩

def envC2 : Env := ⟨fun _ => none, fun _ => some [1, 2, 3], true⟩

/-! ## Theorems -/

set_option maxRecDepth 1000000

theorem wordLEBytes_length (w : Nat) : (wordLEBytes w).length = 4 := rfl

theorem md5Digest_length (m : List Nat) : (md5Digest m).length = 16 := by
  simp [md5Digest, wordLEBytes]

theorem byteToHex_length (b : Nat) : (byteToHex b).length = 2 := rfl

theorem bytesToHex_length (l : List Nat) : (bytesToHex l).length = 2 * l.length := by
  induction l with
  | nil => rfl
  | cons b t ih =>
      simp only [bytesToHex, List.foldr] at ih ⊢
      rw [String.length_append, byteToHex_length, ih, List.length_cons]
      ring

theorem md5Hex_length (s : String) : (md5Hex s).length = 32 := by
  rw [md5Hex, bytesToHex_length, md5Digest_length]

theorem generateCacheKey_length (n : String) (w h q : Int) (f : String) :
    (generateCacheKey n w h q f).length = 33 + f.length := by
  rw [generateCacheKey, String.length_append, String.length_append, md5Hex_length]
  rfl

/-- Claim C1 (counterexample): two TransformRequests that differ in both
`sourceName` and `width` nevertheless receive the identical CacheKey,
with certainty: the hash accumulator receives the bare concatenation
of the fields, and `"a1" + "2"` and `"a" + "12"` concatenate to the
same digest input.  Collisions between distinct requests are therefore
not cryptographically implausible. -/
theorem generateCacheKey_collision :
    generateCacheKey "a1" 2 3 80 "jpg" = generateCacheKey "a" 12 3 80 "jpg"
      ∧ "a1" ≠ "a" ∧ (2 : Int) ≠ 12 := by
  decide

/-- Claim C1 (amended): `generateCacheKey` is a pure deterministic
function of the five fields — it depends only on the concatenation
`sourceName ++ width ++ height ++ quality ++ format` and on `format`,
with no process state.  Identical fields therefore always give the
identical key; but any two requests whose concatenations coincide
(with the same format) also collide with certainty, so a difference in
a single field does not guarantee a distinct key. -/
theorem generateCacheKey_concat (n1 n2 : String) (w1 h1 q1 w2 h2 q2 : Int)
    (f1 f2 : String)
    (hcat : n1 ++ toString w1 ++ toString h1 ++ toString q1 ++ f1
          = n2 ++ toString w2 ++ toString h2 ++ toString q2 ++ f2)
    (hf : f1 = f2) :
    generateCacheKey n1 w1 h1 q1 f1 = generateCacheKey n2 w2 h2 q2 f2 := by
  rw [generateCacheKey, generateCacheKey, hcat, hf]

/-- Claim C1 (witness): the amended theorem applied at the colliding pair. -/
theorem generateCacheKey_concat_witness :
    generateCacheKey "a1" 2 3 80 "jpg" = generateCacheKey "a" 12 3 80 "jpg" :=
  generateCacheKey_concat "a1" "a" 2 3 80 12 3 80 "jpg" "jpg" (by decide) rfl

/-- Claim C3 (counterexample): with the pipeline succeeding and the
cache write failing, the handler responds 500 with the generic error
text, not 200 with the freshly computed bytes: `await fs.writeFile`
throws inside the inner catch block, so the error reaches the outer
catch before `res.send(optimizedImageBuffer)` runs. -/
theorem put_failure_500_concrete :
    (optimizeHandler envC3 "img.jpg" ⟨none, none, none, none⟩).resp.status = 500
    ∧ (optimizeHandler envC3 "img.jpg" ⟨none, none, none, none⟩).resp.body
        = Body.text "Image processing error." := by
  decide

/-- Claim C3 (amended): whenever the transform pipeline succeeds but the
cache write fails, the write error is not merely logged: the request
fails with the generic HTTP 500 response and the freshly computed
bytes are never served; no cache entry is written. -/
theorem put_failure_returns_500 (env : Env) (imageName : String)
    (q : OptimizeQuery) (buf : List Nat)
    (hf : effFormat q ∈ validFormats)
    (hmiss : env.cache (cachePathOf imageName q) = none)
    (hpipe : env.pipeline (pipelineCallOf imageName q) = some buf)
    (hw : env.writeOk = false) :
    (optimizeHandler env imageName q).resp
        = ⟨500, none, Body.text "Image processing error."⟩
    ∧ (optimizeHandler env imageName q).cacheWrites = [] := by
  simp [optimizeHandler, hf, hmiss, hpipe, hw]

/-- Claim C3 (witness): the amended theorem at a concrete environment. -/
theorem put_failure_returns_500_witness :
    (optimizeHandler envC3 "img.jpg" ⟨none, none, none, none⟩).cacheWrites = [] :=
  (put_failure_returns_500 envC3 "img.jpg" ⟨none, none, none, none⟩ [7, 7, 7]
    (by decide) rfl rfl rfl).2

/-- Claim C4 (counterexample): for `imageName = "../../etc/passwd"` the
handler does not reject the request: it serves HTTP 200 and the sharp
pipeline is invoked on `./public/../../etc/passwd`, i.e. a file read
outside the trusted source directory is attempted. -/
theorem traversal_read_attempted :
    (optimizeHandler envC4 "../../etc/passwd" ⟨none, none, none, none⟩).resp.status = 200
    ∧ (optimizeHandler envC4 "../../etc/passwd" ⟨none, none, none, none⟩).pipelineCalls
        = [⟨"./public/../../etc/passwd", 800, 600, sharpResizeOpts, EncodeOp.jpeg 80⟩] := by
  decide

/-- Claim C4 (amended): the handler performs no path-traversal
validation whatsoever.  For every `imageName` (under a valid format
and a cache miss with a succeeding pipeline) the source path handed to
the pipeline is the naive concatenation `./public/ ++ imageName`, and
the request is never rejected with 400 — traversal sequences included. -/
theorem no_traversal_validation (env : Env) (imageName : String)
    (q : OptimizeQuery) (buf : List Nat)
    (hf : effFormat q ∈ validFormats)
    (hmiss : env.cache (cachePathOf imageName q) = none)
    (hpipe : env.pipeline (pipelineCallOf imageName q) = some buf) :
    (optimizeHandler env imageName q).pipelineCalls = [pipelineCallOf imageName q]
    ∧ (pipelineCallOf imageName q).sourcePath = "./public/" ++ imageName
    ∧ (optimizeHandler env imageName q).resp.status ≠ 400 := by
  refine ⟨?_, rfl, ?_⟩ <;>
    by_cases hw : env.writeOk <;>
      simp [optimizeHandler, hf, hmiss, hpipe, hw]

/-- Claim C4 (witness): the amended theorem at the traversal input. -/
theorem no_traversal_validation_witness :
    (optimizeHandler envC4 "../../etc/passwd" ⟨none, none, none, none⟩).pipelineCalls
      = [pipelineCallOf "../../etc/passwd" ⟨none, none, none, none⟩] :=
  (no_traversal_validation envC4 "../../etc/passwd" ⟨none, none, none, none⟩ [9]
    (by decide) rfl rfl).1

/-- Claim C5: a request whose (defaulted) format is outside the
supported set is answered with HTTP 400, and nothing else happens: no
pipeline invocation, no cache write, and the cache directory contents
are untouched — the validation on lines 121–125 runs before the cache
lookup and the transform. -/
theorem invalid_format_no_effects (env : Env) (imageName : String)
    (q : OptimizeQuery)
    (h : effFormat q ∉ validFormats) :
    (optimizeHandler env imageName q).resp.status = 400
    ∧ (optimizeHandler env imageName q).pipelineCalls = []
    ∧ (optimizeHandler env imageName q).cacheWrites = []
    ∧ (optimizeHandler env imageName q).cacheAfter = env.cache := by
  simp [optimizeHandler, h]

/-- Claim C5 (witness): `format=bmp` at a concrete environment. -/
theorem invalid_format_no_effects_witness :
    (optimizeHandler envC5 "img.jpg" ⟨none, none, none, some "bmp"⟩).resp.status = 400
    ∧ (optimizeHandler envC5 "img.jpg" ⟨none, none, none, some "bmp"⟩).pipelineCalls = []
    ∧ (optimizeHandler envC5 "img.jpg" ⟨none, none, none, some "bmp"⟩).cacheWrites = []
    ∧ (optimizeHandler envC5 "img.jpg" ⟨none, none, none, some "bmp"⟩).cacheAfter
        = envC5.cache :=
  invalid_format_no_effects envC5 "img.jpg" ⟨none, none, none, some "bmp"⟩ (by decide)

/-- Claim C2: with the cache write succeeding and the transform pipeline
total, calling the optimize endpoint twice with identical parameters —
from any starting cache state — yields byte-identical response bodies,
and the second call performs zero transform-pipeline invocations: it
is served from the cache entry present after the first call. -/
theorem optimize_second_call_cached (env : Env) (imageName : String)
    (q : OptimizeQuery)
    (hw : env.writeOk = true)
    (hp : ∀ c, (env.pipeline c).isSome = true) :
    (optimizeHandler { env with cache := (optimizeHandler env imageName q).cacheAfter }
        imageName q).resp.body
      = (optimizeHandler env imageName q).resp.body
    ∧ (optimizeHandler { env with cache := (optimizeHandler env imageName q).cacheAfter }
        imageName q).pipelineCalls = [] := by
  by_cases hf : effFormat q ∈ validFormats
  · rcases hc : env.cache (cachePathOf imageName q) with _ | img
    · rcases hpc : env.pipeline (pipelineCallOf imageName q) with _ | buf
      · have hsome := hp (pipelineCallOf imageName q)
        rw [hpc] at hsome
        simp at hsome
      · simp [optimizeHandler, hf, hc, hpc, hw]
    · simp [optimizeHandler, hf, hc]
  · simp [optimizeHandler, hf]

/-- Claim C2 (witness): a cold cache, a total pipeline, writes succeed. -/
theorem optimize_second_call_cached_witness :
    (optimizeHandler
        { envC2 with
          cache := (optimizeHandler envC2 "cat.png" ⟨none, none, none, none⟩).cacheAfter }
        "cat.png" ⟨none, none, none, none⟩).resp.body
      = (optimizeHandler envC2 "cat.png" ⟨none, none, none, none⟩).resp.body
    ∧ (optimizeHandler
        { envC2 with
          cache := (optimizeHandler envC2 "cat.png" ⟨none, none, none, none⟩).cacheAfter }
        "cat.png" ⟨none, none, none, none⟩).pipelineCalls = [] :=
  optimize_second_call_cached envC2 "cat.png" ⟨none, none, none, none⟩ rfl (fun _ => rfl)

/-- Claim C6 (counterexample): `format=jpg` and `format=jpeg` with all
other fields equal do not produce the same CacheKey: the format string
is both hashed and appended as the extension, so the keys differ. -/
theorem jpg_jpeg_key_differs_concrete :
    generateCacheKey "a" 800 600 80 "jpg" ≠ generateCacheKey "a" 800 600 80 "jpeg" := by
  decide

/-- Claim C6 (amended): `jpg` and `jpeg` select the same encoder
invocation (the `default` switch branch, jpeg at the given quality),
so on a fresh miss with equal remaining parameters the transformed
bytes are identical; but the two formats are not canonicalized: they
always produce different CacheKeys (hence separate cache entries) and
different `Content-Type` headers (`image/jpg` vs `image/jpeg`). -/
theorem jpg_jpeg_same_bytes_different_keys (env : Env) (imageName : String)
    (qw qh qq : Option String) (buf : List Nat)
    (hmiss1 : env.cache (cachePathOf imageName ⟨qw, qh, qq, some "jpg"⟩) = none)
    (hmiss2 : env.cache (cachePathOf imageName ⟨qw, qh, qq, some "jpeg"⟩) = none)
    (hpipe : env.pipeline (pipelineCallOf imageName ⟨qw, qh, qq, some "jpg"⟩) = some buf)
    (hw : env.writeOk = true) :
    (optimizeHandler env imageName ⟨qw, qh, qq, some "jpg"⟩).resp.body
      = (optimizeHandler env imageName ⟨qw, qh, qq, some "jpeg"⟩).resp.body
    ∧ (optimizeHandler env imageName ⟨qw, qh, qq, some "jpg"⟩).resp.contentType
      ≠ (optimizeHandler env imageName ⟨qw, qh, qq, some "jpeg"⟩).resp.contentType
    ∧ (∀ (n : String) (w h qu : Int),
        generateCacheKey n w h qu "jpg" ≠ generateCacheKey n w h qu "jpeg")
    ∧ (∀ qu : Int, encodeOp "jpg" qu = encodeOp "jpeg" qu) := by
  have hcall : pipelineCallOf imageName ⟨qw, qh, qq, some "jpeg"⟩
      = pipelineCallOf imageName ⟨qw, qh, qq, some "jpg"⟩ := rfl
  have hpipe2 : env.pipeline (pipelineCallOf imageName ⟨qw, qh, qq, some "jpeg"⟩)
      = some buf := by rw [hcall]; exact hpipe
  have hkey : ∀ (n : String) (w h qu : Int),
      generateCacheKey n w h qu "jpg" ≠ generateCacheKey n w h qu "jpeg" := by
    intro n w h qu heq
    have hlen := congrArg String.length heq
    have h3 : ("jpg" : String).length = 3 := rfl
    have h4 : ("jpeg" : String).length = 4 := rfl
    rw [generateCacheKey_length, generateCacheKey_length, h3, h4] at hlen
    omega
  refine ⟨?_, ?_, hkey, fun qu => rfl⟩ <;>
    simp [optimizeHandler, hmiss1, hmiss2, hpipe, hpipe2, hw, effFormat, jsStrOr,
      validFormats]

/-- Claim C6 (witness): the amended theorem at a concrete environment. -/
theorem jpg_jpeg_same_bytes_different_keys_witness :
    (optimizeHandler envC6 "a" ⟨none, none, none, some "jpg"⟩).resp.body
      = (optimizeHandler envC6 "a" ⟨none, none, none, some "jpeg"⟩).resp.body :=
  (jpg_jpeg_same_bytes_different_keys envC6 "a" none none none [5] rfl rfl rfl rfl).1

/-- Claim C7 (counterexample): `width=0` is numeric
(`Number.parseInt("0") = 0`), yet it is not passed through to the
pipeline: `0` is falsy, so `parseInt(req.query.width) || 800` replaces
it with the default and the pipeline receives width 800. -/
theorem width_zero_not_passed_through :
    jsParseInt "0" = some 0
    ∧ (optimizeHandler envC7 "img.jpg" ⟨some "0", none, none, none⟩).pipelineCalls
        = [⟨"./public/img.jpg", 800, 600, sharpResizeOpts, EncodeOp.jpeg 80⟩] := by
  decide

/-- Claim C7 (amended): `width`, `height`, `quality` default to
800/600/80 when the parameter is absent, non-numeric, or parses to 0
(JavaScript `||` treats 0 as falsy); every other parsed value —
pathological ones such as `quality=99999` or negatives included — is
passed through unvalidated and unclamped into the pipeline invocation. -/
theorem query_number_parsing :
    (∀ d : Int, jsNumOr none d = d)
    ∧ (∀ (s : String) (d : Int), jsParseInt s = none → jsNumOr (some s) d = d)
    ∧ (∀ (s : String) (d n : Int), jsParseInt s = some n → n ≠ 0 → jsNumOr (some s) d = n)
    ∧ (∀ (s : String) (d : Int), jsParseInt s = some 0 → jsNumOr (some s) d = d)
    ∧ (∀ (imageName : String) (q : OptimizeQuery),
        pipelineCallOf imageName q
          = ⟨"./public/" ++ imageName, jsNumOr q.width 800, jsNumOr q.height 600,
              sharpResizeOpts, encodeOp (effFormat q) (jsNumOr q.quality 80)⟩) := by
  refine ⟨fun d => rfl, ?_, ?_, ?_, fun imageName q => rfl⟩
  · intro s d hnan
    simp [jsNumOr, hnan]
  · intro s d n hn hnz
    simp [jsNumOr, hn, hnz]
  · intro s d h0
    simp [jsNumOr, h0]

/-- Claim C7 (witness): the amended theorem at `abc`, `99999` and `0`. -/
theorem query_number_parsing_witness :
    jsNumOr (some "abc") 800 = 800
    ∧ jsNumOr (some "99999") 80 = 99999
    ∧ jsNumOr (some "0") 800 = 800 :=
  ⟨query_number_parsing.2.1 "abc" 800 (by decide),
   query_number_parsing.2.2.1 "99999" 80 99999 (by decide) (by decide),
   query_number_parsing.2.2.2.1 "0" 800 (by decide)⟩

/-- Claim C8: the resize step fits the image inside the requested
`width × height` box without enlarging: output dimensions stay within
the box, never exceed the native dimensions, preserve the aspect ratio
exactly, and when the requested box is at least the native size the
output equals the native dimensions; moreover every pipeline
invocation made by the handler carries the `fit: inside`,
`withoutEnlargement: true` options of lines 144–147.  (Resize
semantics modelled from the spec; sharp itself is an external
library.) -/
theorem resize_fit_inside_no_enlargement (natW natH reqW reqH : ℚ)
    (hnW : 0 < natW) (hnH : 0 < natH) :
    (resizeDims natW natH reqW reqH).1 ≤ reqW
    ∧ (resizeDims natW natH reqW reqH).2 ≤ reqH
    ∧ (resizeDims natW natH reqW reqH).1 ≤ natW
    ∧ (resizeDims natW natH reqW reqH).2 ≤ natH
    ∧ (resizeDims natW natH reqW reqH).1 * natH
        = (resizeDims natW natH reqW reqH).2 * natW
    ∧ (natW ≤ reqW → natH ≤ reqH → resizeDims natW natH reqW reqH = (natW, natH))
    ∧ (∀ (env : Env) (imageName : String) (q : OptimizeQuery),
        ∀ c ∈ (optimizeHandler env imageName q).pipelineCalls, c.opts = sharpResizeOpts) := by
  have hW' : natW ≠ 0 := ne_of_gt hnW
  have hH' : natH ≠ 0 := ne_of_gt hnH
  simp only [resizeDims]
  refine ⟨?_, ?_, ?_, ?_, by ring, ?_, ?_⟩
  · calc natW * min (min (reqW / natW) (reqH / natH)) 1
        ≤ natW * (reqW / natW) :=
          mul_le_mul_of_nonneg_left ((min_le_left _ _).trans (min_le_left _ _)) hnW.le
      _ = reqW := by rw [mul_comm, div_mul_cancel₀ _ hW']
  · calc natH * min (min (reqW / natW) (reqH / natH)) 1
        ≤ natH * (reqH / natH) :=
          mul_le_mul_of_nonneg_left ((min_le_left _ _).trans (min_le_right _ _)) hnH.le
      _ = reqH := by rw [mul_comm, div_mul_cancel₀ _ hH']
  · calc natW * min (min (reqW / natW) (reqH / natH)) 1
        ≤ natW * 1 := mul_le_mul_of_nonneg_left (min_le_right _ _) hnW.le
      _ = natW := mul_one natW
  · calc natH * min (min (reqW / natW) (reqH / natH)) 1
        ≤ natH * 1 := mul_le_mul_of_nonneg_left (min_le_right _ _) hnH.le
      _ = natH := mul_one natH
  · intro hW hH
    have h1 : (1 : ℚ) ≤ reqW / natW := (one_le_div hnW).mpr hW
    have h2 : (1 : ℚ) ≤ reqH / natH := (one_le_div hnH).mpr hH
    rw [min_eq_right (le_min h1 h2)]
    simp
  · intro env imageName q c hc
    by_cases hf : effFormat q ∈ validFormats
    · rcases hcache : env.cache (cachePathOf imageName q) with _ | img
      · rcases hpc : env.pipeline (pipelineCallOf imageName q) with _ | buf
        · simp [optimizeHandler, hf, hcache, hpc] at hc
          rw [hc]
          rfl
        · by_cases hw : env.writeOk <;>
            simp [optimizeHandler, hf, hcache, hpc, hw] at hc <;>
            (rw [hc]; rfl)
      · simp [optimizeHandler, hf, hcache] at hc
    · simp [optimizeHandler, hf] at hc

/-- Claim C8 (witness): a 100×50 source with an 800×600 requested box
keeps its native dimensions. -/
theorem resize_fit_inside_no_enlargement_witness :
    resizeDims 100 50 800 600 = (100, 50) :=
  ((resize_fit_inside_no_enlargement 100 50 800 600 (by norm_num)
      (by norm_num)).2.2.2.2.2.1) (by norm_num) (by norm_num)

/-- Claim C9: for `format=png` the quality parameter has no semantic
effect on the transform output: the `png` switch branch passes no
quality to the encoder, so the pipeline invocation — and hence its
output bytes — is identical for any two quality values with the same
source, width and height; and a quality value for png is never treated
as an error (the handler never answers 400 for `format=png`). -/
theorem png_quality_no_effect (env : Env) (imageName src : String)
    (w h q1 q2 : Int) (qw qh qs : Option String) :
    encodeOp "png" q1 = encodeOp "png" q2
    ∧ env.pipeline ⟨src, w, h, sharpResizeOpts, encodeOp "png" q1⟩
        = env.pipeline ⟨src, w, h, sharpResizeOpts, encodeOp "png" q2⟩
    ∧ (optimizeHandler env imageName ⟨qw, qh, qs, some "png"⟩).resp.status ≠ 400 := by
  refine ⟨rfl, rfl, ?_⟩
  rcases hc : env.cache (cachePathOf imageName ⟨qw, qh, qs, some "png"⟩) with _ | img
  · rcases hpc : env.pipeline (pipelineCallOf imageName ⟨qw, qh, qs, some "png"⟩) with _ | buf
    · simp [optimizeHandler, hc, hpc, effFormat, jsStrOr, validFormats]
    · by_cases hw : env.writeOk <;>
        simp [optimizeHandler, hc, hpc, hw, effFormat, jsStrOr, validFormats]
  · simp [optimizeHandler, hc, effFormat, jsStrOr, validFormats]

/-- Claim C10: the handler answers 400 exactly when the format value in
play (the `format` variable of line 119, i.e. the query parameter
after `|| "jpg"` defaulting) is not one of the four exact lowercase
strings `jpg`, `jpeg`, `png`, `webp` — the `includes` test on
lines 122–125 is exact, case-sensitive string membership, so `JPG` or
`Png` are rejected. -/
theorem optimize_400_iff_format_invalid (env : Env) (imageName : String)
    (q : OptimizeQuery) :
    ((optimizeHandler env imageName q).resp.status = 400
      ↔ ¬(effFormat q = "jpg" ∨ effFormat q = "jpeg" ∨ effFormat q = "png"
          ∨ effFormat q = "webp")) := by
  have hmem : effFormat q ∈ validFormats
      ↔ (effFormat q = "jpg" ∨ effFormat q = "jpeg" ∨ effFormat q = "png"
          ∨ effFormat q = "webp") := by
    simp [validFormats]
  rw [← hmem]
  by_cases hf : effFormat q ∈ validFormats
  · rcases hc : env.cache (cachePathOf imageName q) with _ | img
    · rcases hpc : env.pipeline (pipelineCallOf imageName q) with _ | buf
      · simp [optimizeHandler, hf, hc, hpc]
      · by_cases hw : env.writeOk <;> simp [optimizeHandler, hf, hc, hpc, hw]
    · simp [optimizeHandler, hf, hc]
  · simp [optimizeHandler, hf]
